import Mathlib

/-!
# Verification of the omdient WebSocket client subsystem

Shallow embedding of the WebSocket client code (`pkg/websocket`), covering:
the close handshake (`close.go`), message reading/sending (`message.go`,
`conn.go`), and the client supervisor (`client.go`): registry acquisition,
relay pruning and connection replacement.

Bytes are modelled as `Nat` (values < 256 where relevant), byte strings as
`List Nat`, Go slices as Lean lists, and `*Conn` pointers (which may be nil)
as `Option Conn`.
-/

namespace Omdient

/-- A WebSocket frame opcode, per RFC 6455 section 5.2.

Modelled from the spec: the frame-codec source file defining the `Opcode`
constants is not part of the provided sources; the spec describes the opcode
as a "4-bit tagged variant: Continuation, Text, Binary, Close, Ping, Pong"
with RFC 6455 wire values. -/
abbrev Opcode := Nat

def opcodeContinuation : Opcode := 0x0
def opcodeText : Opcode := 0x1
def opcodeBinary : Opcode := 0x2
def opcodeClose : Opcode := 0x8
def opcodePing : Opcode := 0x9
def opcodePong : Opcode := 0xA

/-- Modelled from the spec: the frame-codec source file defining
`maxControlPayload` is not provided; the spec fixes the largest
control-frame payload at 125 bytes ("Control-frame payloads never
exceed 125 bytes", "one fixed scratch buffer sized for the largest
control-frame payload (125 bytes)"). -/
def maxControlPayload : Nat := 125

/-- `close.go`: `const maxCloseReason = maxControlPayload - 2`. -/
def maxCloseReason : Nat := maxControlPayload - 2

/-- `close.go`: `type StatusCode int`. -/
abbrev StatusCode := Nat

-- `close.go`: the `iota + 1000` status-code constants (1004 is skipped
-- by a blank identifier in the source).
def StatusNormalClosure : StatusCode := 1000
def StatusGoingAway : StatusCode := 1001
def StatusProtocolError : StatusCode := 1002
def StatusUnsupportedData : StatusCode := 1003
def StatusNotReceived : StatusCode := 1005
def StatusClosedAbnormally : StatusCode := 1006
def StatusInvalidData : StatusCode := 1007
def StatusPolicyViolation : StatusCode := 1008
def StatusMessageTooBig : StatusCode := 1009
def StatusMandatoryExtension : StatusCode := 1010
def StatusInternalError : StatusCode := 1011
def StatusServiceRestart : StatusCode := 1012
def StatusTryAgainLater : StatusCode := 1013
def StatusBadGateway : StatusCode := 1014
def StatusTLSHandshake : StatusCode := 1015

/-- `binary.BigEndian.Uint16` applied to the first two bytes. -/
def bigEndianUint16 (b0 b1 : Nat) : Nat := b0 * 256 + b1

/-- `close.go` `parseClose`: switch on the payload length
(0 or 1 / 2 / default). The reason is kept as raw bytes
(Go converts `payload[2:]` to a string unchecked). -/
def parseClose : List Nat → StatusCode × List Nat
  | [] => (StatusNotReceived, [])
  | [_] => (StatusNotReceived, [])
  | [b0, b1] => (bigEndianUint16 b0 b1, [])
  | b0 :: b1 :: rest => (bigEndianUint16 b0 b1, rest)

/-- The close-handshake state of one `Conn` (`conn.go`): the two monotone
flags. The scratch buffers and channels are modelled by the functions
below returning the submitted frames explicitly. -/
structure Conn where
  closeReceived : Bool
  closeSent : Bool
  deriving DecidableEq, Repr

/-- `conn.go`: the `internalMessage` triple submitted to the writer task
(the reply channel is left implicit; the writer outcome is modelled where
needed by an explicit error flag). -/
structure internalMessage where
  opcode : Opcode
  data : List Nat
  deriving DecidableEq, Repr

/-- `close.go` `sendCloseControlFrame`: under the `closeSentMu` lock,
no-op when `closeSent` is already set; otherwise truncate the reason to
`maxCloseReason` bytes, build the `2 + len(reason)` payload (big-endian
`uint16(s)` followed by the reason bytes, exactly the part of `closeBuf`
that is submitted), submit it to the writer task via
`sendControlFrame(opcodeClose, closeBuf[:n])`, and set `closeSent`.
`submitErr` is the error received back from the writer task; the source
only chooses between two log lines on it — the returned state and frame
do not depend on it. Returns the new connection state and the submitted
Close control frame, if any. -/
def sendCloseControlFrame (c : Conn) (s : StatusCode) (reason : List Nat)
    (submitErr : Bool) : Conn × Option internalMessage :=
  if c.closeSent then
    (c, none)
  else
    let reason := if reason.length > maxCloseReason then reason.take maxCloseReason else reason
    let payload := (s % 65536) / 256 :: (s % 65536) % 256 :: reason
    let _ := submitErr
    ({ c with closeSent := true }, some { opcode := opcodeClose, data := payload })

/-- `close.go` `isCloseSent` (the read-lock accessor). -/
def isCloseSent (c : Conn) : Bool := c.closeSent

/-- `close.go` `Close`: send a Close control frame with an empty reason. -/
def Conn.Close (c : Conn) (s : StatusCode) (submitErr : Bool) :
    Conn × Option internalMessage :=
  sendCloseControlFrame c s [] submitErr

/-- `close.go` `IsClosed`: `closeReceived && isCloseSent()`. -/
def IsClosed (c : Conn) : Bool := c.closeReceived && isCloseSent c

/-- `close.go` `IsClosing`: `(closeReceived || isCloseSent()) && !IsClosed()`. -/
def IsClosing (c : Conn) : Bool := (c.closeReceived || isCloseSent c) && !(IsClosed c)

/-! ## Message layer (`message.go`, `conn.go`) -/

/-- `message.go` `SendTextMessage`: submits
`message{opcode: opcodeText, data: data}` to the writer channel. -/
def SendTextMessage (data : List Nat) : internalMessage :=
  { opcode := opcodeText, data := data }

/-- `message.go` `SendBinaryMessage`: submits
`message{opcode: opcodeText, data: data}` to the writer channel —
this mirrors the source exactly, including the opcode it uses. -/
def SendBinaryMessage (data : List Nat) : internalMessage :=
  { opcode := opcodeText, data := data }

/-- `message.go` `readMessage`, `case opcodeClose` branch: parse the Close
payload, set `closeReceived`, mirror a Close control frame back, and
return nil (the reader loop terminates). Returns the new connection state
and the mirrored Close payload submitted to the writer, if any. -/
def onCloseFrame (c : Conn) (data : List Nat) (submitErr : Bool) :
    Conn × Option internalMessage :=
  let (status, reason) := parseClose data
  sendCloseControlFrame { c with closeReceived := true } status reason submitErr

/-- The status code carried by a Close payload that an endpoint puts on the
wire: the big-endian 16-bit integer in its first two bytes. -/
def wireCloseStatus (payload : List Nat) : Nat :=
  match payload with
  | b0 :: b1 :: _ => bigEndianUint16 b0 b1
  | _ => 0

/-- One `sendCloseControlFrame` call applied to a connection state paired
with a running count of Close control frames submitted so far. A call is a
status, a reason, and the writer outcome it observes. -/
def closeCallStep (st : Conn × Nat) (call : StatusCode × List Nat × Bool) :
    Conn × Nat :=
  let r := sendCloseControlFrame st.1 call.1 call.2.1 call.2.2
  (r.1, st.2 + if r.2.isSome then 1 else 0)

/-- The total number of Close control frames submitted to the writer task
by a sequence of `sendCloseControlFrame` calls on one connection. -/
def runCloseCalls (c : Conn) (calls : List (StatusCode × List Nat × Bool)) :
    Conn × Nat :=
  calls.foldl closeCallStep (c, 0)

/-- `close.go` doc comments on `StatusNotReceived`, `StatusClosedAbnormally`
and `StatusTLSHandshake`: "Reserved value, MUST NOT be set as a status code
in a Close control frame by an endpoint." -/
def reservedPseudoCode (s : Nat) : Bool :=
  s = StatusNotReceived || s = StatusClosedAbnormally || s = StatusTLSHandshake

/-- `conn.go` (the `chan []byte` revision) `readMessages`:

```go
msg := []byte{}
for msg != nil {
    msg = c.readMessage()
    c.readC <- msg
}
close(c.readC)
```

Driven by the successive results of `c.readMessage()` (each `some bytes`,
with `none` standing for a nil result, i.e. reader termination). Returns
the values published on `readC` in order, and whether `close(readC)` was
reached. An exhausted result stream means the loop is still running. -/
def readMessagesRun : List (Option (List Nat)) → List (Option (List Nat)) × Bool
  | [] => ([], false)
  | some m :: rest =>
    let (p, closed) := readMessagesRun rest
    (some m :: p, closed)
  | none :: _ => ([none], true)

/-! ## Supervisor (`client.go`) -/

/-- `client.go` `pruneConns`:

```go
for len(c.conns) > 0 {
    if c.conns[0].IsClosed() || c.conns[0].IsClosing() {
        c.conns = c.conns[1:]
    }
}
```

One fuel unit per loop iteration; `none` means the loop was still running
when the fuel ran out, `some conns` that the loop exited with that
connection sequence. Note the source has no else branch: an iteration whose
head is neither closed nor closing leaves the sequence unchanged. -/
def pruneRun : Nat → List Conn → Option (List Conn)
  | _, [] => some []
  | 0, _ :: _ => none
  | n + 1, c :: rest =>
    if IsClosed c || IsClosing c then pruneRun n rest
    else pruneRun n (c :: rest)

/-- `client.go` `replaceConn`:

```go
if len(c.conns) == 0 {
    url, _ := c.url(ctx)
    conn, _ := Dial(ctx, url, c.opts...)
    c.conns = append(c.conns, conn)
}
c.inMsgs = c.conns[0].IncomingMessages()
```

Connections are `*Conn` pointers, so list elements are `Option Conn`
(`none` = nil pointer). `dialResult` is what `Dial` returned (nil on
error; both the URL-producer error and the dial error are discarded by
the source). Returns the new connection sequence and the connection whose
`IncomingMessages` channel the relay task subscribes to next
(`c.conns[0]`, which the source reads unconditionally). -/
def replaceConn (dialResult : Option Conn) (conns : List (Option Conn)) :
    List (Option Conn) × Option (Option Conn) :=
  let conns := if conns.length = 0 then conns ++ [dialResult] else conns
  (conns, conns.head?)

/-! ## SHA-256 (`crypto/sha256` as used by `client.go` `hash`)

`hash` computes `fmt.Sprintf("%x", sha256.Sum(id))`: the lowercase
hexadecimal encoding of the SHA-256 digest of the identity string's
UTF-8 bytes. FIPS 180-4 SHA-256, words as `Nat` reduced mod `2^32`. -/

/-- `2^32`, the word modulus. -/
def w32 : Nat := 4294967296

/-- Right rotation of a 32-bit word. -/
def rotr32 (x n : Nat) : Nat := ((x >>> n) + (x <<< (32 - n))) % w32

/-- Bitwise complement of a 32-bit word. -/
def not32 (x : Nat) : Nat := (w32 - 1) - x

def bigSigma0 (x : Nat) : Nat := rotr32 x 2 ^^^ rotr32 x 13 ^^^ rotr32 x 22
def bigSigma1 (x : Nat) : Nat := rotr32 x 6 ^^^ rotr32 x 11 ^^^ rotr32 x 25
def smallSigma0 (x : Nat) : Nat := rotr32 x 7 ^^^ rotr32 x 18 ^^^ (x >>> 3)
def smallSigma1 (x : Nat) : Nat := rotr32 x 17 ^^^ rotr32 x 19 ^^^ (x >>> 10)
def ch32 (x y z : Nat) : Nat := (x &&& y) ^^^ (not32 x &&& z)
def maj32 (x y z : Nat) : Nat := (x &&& y) ^^^ (x &&& z) ^^^ (y &&& z)

/-- The 64 SHA-256 round constants (FIPS 180-4 section 4.2.2, in decimal). -/
def sha256K : List Nat :=
  [1116352408, 1899447441, 3049323471, 3921009573, 961987163, 1508970993,
   2453635748, 2870763221, 3624381080, 310598401, 607225278, 1426881987,
   1925078388, 2162078206, 2614888103, 3248222580, 3835390401, 4022224774,
   264347078, 604807628, 770255983, 1249150122, 1555081692, 1996064986,
   2554220882, 2821834349, 2952996808, 3210313671, 3336571891, 3584528711,
   113926993, 338241895, 666307205, 773529912, 1294757372, 1396182291,
   1695183700, 1986661051, 2177026350, 2456956037, 2730485921, 2820302411,
   3259730800, 3345764771, 3516065817, 3600352804, 4094571909, 275423344,
   430227734, 506948616, 659060556, 883997877, 958139571, 1322822218,
   1537002063, 1747873779, 1955562222, 2024104815, 2227730452, 2361852424,
   2428436474, 2756734187, 3204031479, 3329325298]

/-- The running hash state: eight 32-bit words. -/
structure Hash8 where
  a : Nat
  b : Nat
  c : Nat
  d : Nat
  e : Nat
  f : Nat
  g : Nat
  h : Nat
  deriving DecidableEq, Repr

/-- The SHA-256 initial hash value (FIPS 180-4 section 5.3.3, in decimal). -/
def sha256Init : Hash8 :=
  ⟨1779033703, 3144134277, 1013904242, 2773480762,
   1359893119, 2600822924, 528734635, 1541459225⟩

/-- Big-endian byte encoding of `v` in `n` bytes. -/
def beBytes : Nat → Nat → List Nat
  | 0, _ => []
  | n + 1, v => beBytes n (v / 256) ++ [v % 256]

/-- SHA-256 message padding: append `0x80`, zeros to 56 mod 64, and the
64-bit big-endian bit length. -/
def sha256Pad (msg : List Nat) : List Nat :=
  let L := msg.length
  let k := (64 + 56 - ((L + 1) % 64)) % 64
  msg ++ [0x80] ++ List.replicate k 0 ++ beBytes 8 (8 * L)

/-- Group bytes into big-endian 32-bit words. -/
def bytesToWords : List Nat → List Nat
  | b0 :: b1 :: b2 :: b3 :: rest =>
    (((b0 * 256 + b1) * 256 + b2) * 256 + b3) :: bytesToWords rest
  | _ => []

/-- Extend 16 message-schedule words to 64. -/
def sha256Schedule (w16 : List Nat) : List Nat :=
  (List.range 48).foldl
    (fun w _ =>
      let i := w.length
      w ++ [(smallSigma1 (w.getD (i - 2) 0) + w.getD (i - 7) 0 +
             smallSigma0 (w.getD (i - 15) 0) + w.getD (i - 16) 0) % w32])
    w16

/-- One SHA-256 compression round; `wk = (Wᵢ, Kᵢ)`. -/
def sha256Round (st : Hash8) (wk : Nat × Nat) : Hash8 :=
  let t1 := (st.h + bigSigma1 st.e + ch32 st.e st.f st.g + wk.2 + wk.1) % w32
  let t2 := (bigSigma0 st.a + maj32 st.a st.b st.c) % w32
  ⟨(t1 + t2) % w32, st.a, st.b, st.c, (st.d + t1) % w32, st.e, st.f, st.g⟩

/-- Compress one 64-byte chunk into the hash state. -/
def sha256Compress (st : Hash8) (chunk : List Nat) : Hash8 :=
  let ws := sha256Schedule (bytesToWords chunk)
  let r := (ws.zip sha256K).foldl sha256Round st
  ⟨(st.a + r.a) % w32, (st.b + r.b) % w32, (st.c + r.c) % w32, (st.d + r.d) % w32,
   (st.e + r.e) % w32, (st.f + r.f) % w32, (st.g + r.g) % w32, (st.h + r.h) % w32⟩

/-- Split a byte list into 64-byte chunks (structural recursion on a fuel
that the list length always covers: each chunk consumes at least one byte). -/
def chunks64Aux : Nat → List Nat → List (List Nat)
  | 0, _ => []
  | _, [] => []
  | n + 1, b :: rest => (b :: rest).take 64 :: chunks64Aux n ((b :: rest).drop 64)

/-- Split a byte list into 64-byte chunks. -/
def chunks64 (l : List Nat) : List (List Nat) := chunks64Aux l.length l

/-- The SHA-256 digest state of a byte message. -/
def sha256Digest (msg : List Nat) : Hash8 :=
  (chunks64 (sha256Pad msg)).foldl sha256Compress sha256Init

/-- The lowercase hexadecimal digit character for a nibble: `0`–`9` are
code points 48+n, `a`–`f` are code points 87+n. -/
def hexDigit (n : Nat) : Char :=
  if n < 10 then Char.ofNat (48 + n)
  else if n < 16 then Char.ofNat (87 + n)
  else '0'

/-- Whether a character is a lowercase hexadecimal digit: a decimal digit
(code points 48–57) or one of the letters a–f (code points 97–102). -/
def isLowerHexChar (c : Char) : Bool :=
  (48 ≤ c.toNat && c.toNat ≤ 57) || (97 ≤ c.toNat && c.toNat ≤ 102)

/-- The eight lowercase hex characters of one big-endian 32-bit word
(`%x` prints each digest byte as two lowercase hex digits; per word that
is its eight nibbles, most significant first). -/
def wordHexChars (w : Nat) : List Char :=
  [hexDigit (w / 16 ^ 7 % 16), hexDigit (w / 16 ^ 6 % 16), hexDigit (w / 16 ^ 5 % 16),
   hexDigit (w / 16 ^ 4 % 16), hexDigit (w / 16 ^ 3 % 16), hexDigit (w / 16 ^ 2 % 16),
   hexDigit (w / 16 % 16), hexDigit (w % 16)]

/-- UTF-8 encoding of one unicode scalar value (Go's `[]byte(string)`
yields the UTF-8 bytes of the string). -/
def utf8Bytes (c : Char) : List Nat :=
  let n := c.toNat
  if n < 0x80 then [n]
  else if n < 0x800 then [0xC0 + n / 64, 0x80 + n % 64]
  else if n < 0x10000 then [0xE0 + n / 4096, 0x80 + n / 64 % 64, 0x80 + n % 64]
  else [0xF0 + n / 262144, 0x80 + n / 4096 % 64, 0x80 + n / 64 % 64, 0x80 + n % 64]

/-- The UTF-8 bytes of a string. -/
def stringBytes (s : String) : List Nat := s.data.flatMap utf8Bytes

/-- `client.go` `hash`: the stable-but-irreversible SHA-256 hash of a
Client ID, rendered as lowercase hex by `fmt.Sprintf("%x", h.Sum(nil))`. -/
def hash (id : String) : String :=
  let d := sha256Digest (stringBytes id)
  String.mk (wordHexChars d.a ++ wordHexChars d.b ++ wordHexChars d.c ++ wordHexChars d.d ++
             wordHexChars d.e ++ wordHexChars d.f ++ wordHexChars d.g ++ wordHexChars d.h)

/-! ## Supervisor registry (`client.go` `NewOrCachedClient`) -/

/-- A supervisor `Client` (`client.go`): its ordered connection sequence
(each connection reduced to its close-handshake state; the other fields —
logger, URL producer, dial options, channels — do not affect the claims).
A client freshly built by `newClient` holds exactly one connection. -/
structure Client where
  conns : List Conn
  deriving DecidableEq, Repr

/-- The process-wide `clients` mapping (`sync.Map`), as an association
list from hashed ID to client; insertion order, with unique keys. -/
abbrev Registry := List (String × Client)

/-- `sync.Map.Load`. -/
def regLoad (m : Registry) (k : String) : Option Client :=
  (m.find? (fun e => e.1 == k)).map (·.2)

/-- `sync.Map.LoadOrStore`: the existing value for the key if present
(`loaded = true`), otherwise the given value is stored and returned. -/
def regLoadOrStore (m : Registry) (k : String) (v : Client) :
    Registry × Client × Bool :=
  match regLoad m k with
  | some actual => (m, actual, true)
  | none => (m ++ [(k, v)], v, false)

/-- `client.go` `deleteClient`: dispose a newly-created client that lost
the insertion race by closing its lone connection (`c.conns[0]`) with
`StatusGoingAway`. Returns the Close control frame that submission put on
the writer channel, if any. -/
def deleteClient (cl : Client) (submitErr : Bool) : Option internalMessage :=
  match cl.conns with
  | conn :: _ => (Conn.Close conn StatusGoingAway submitErr).2
  | [] => none

/-- `client.go` `NewOrCachedClient`, with its two `sync.Map` operations as
the two linearization points: `m1` is the registry at `clients.Load(hashedID)`
and `m2` the registry at `clients.LoadOrStore(hashedID, c)` (other
goroutines may insert entries in between; no code path ever removes one).
`fresh` is the client built by `newClient` on the miss path (dial
succeeded). Returns the final registry, the returned client, and the Close
control frame emitted by `deleteClient` when the insertion race was lost. -/
def NewOrCachedClient (m1 m2 : Registry) (id : String) (fresh : Client)
    (submitErr : Bool) : Registry × Client × Option internalMessage :=
  let hashedID := hash id
  match regLoad m1 hashedID with
  | some client => (m2, client, none)
  | none =>
    let r := regLoadOrStore m2 hashedID fresh
    if r.2.2 then (r.1, r.2.1, deleteClient fresh submitErr)
    else (r.1, r.2.1, none)

/-! ## Theorems -/

/-- Claim C1: the claim says `SendBinaryMessage` submits a frame with the
Binary opcode to the writer task. The source submits
`message{opcode: opcodeText, ...}`: the frame carries the Text opcode,
which is distinct from the Binary opcode, so a received Binary message
echoed back via `SendBinaryMessage` goes out with the Text opcode, not
the Binary one. -/
theorem sendBinaryMessage_submits_text_opcode (data : List Nat) :
    (SendBinaryMessage data).opcode = opcodeText ∧ opcodeText ≠ opcodeBinary :=
  ⟨rfl, by decide⟩

/-- Claim C2: the claim says the pruning step terminates, dropping closed
and closing connections from the front and stopping at the first
connection that is neither. The loop body of `pruneConns` has no else
branch and no break: when the head connection is open (neither closed nor
closing) the sequence stays unchanged and the `len(c.conns) > 0` guard
stays true, so no amount of loop iterations reaches an exit — the loop
runs forever. -/
theorem pruneConns_diverges_on_open_head (n : Nat) :
    pruneRun n [⟨false, false⟩] = none := by
  induction n with
  | zero => rfl
  | succ n ih => simpa [pruneRun, IsClosed, IsClosing, isCloseSent] using ih

/-- Claim C3: the claim says a reconnect failure is logged and reattempted
and the relay task never reads from a nil connection. In the source both
the URL-producer error and the `Dial` error are discarded with blank
identifiers, nothing is logged and nothing is retried; a nil `*Conn` is
appended to the empty connection sequence, and `c.conns[0].IncomingMessages()`
is then evaluated on that nil connection. -/
theorem replaceConn_subscribes_to_nil_conn :
    replaceConn none [] = ([none], some none) := rfl

/-- Claim C4: the claim says no Close frame the client puts on the wire
carries one of the reserved pseudo-codes 1005/1006/1015. When a Close
frame with a payload of length 0 or 1 is received, `parseClose` yields
`StatusNotReceived` (1005), and `readMessage` mirrors that status straight
back through `sendCloseControlFrame`: the emitted Close payload is
`[0x03, 0xED]`, i.e. status 1005 on the wire — one of the pseudo-codes the
source's own doc comments say MUST NOT be set in a Close frame. -/
theorem close_mirror_emits_reserved_1005 :
    (onCloseFrame ⟨false, false⟩ [] false).2 =
      some { opcode := opcodeClose, data := [0x03, 0xED] } ∧
    wireCloseStatus [0x03, 0xED] = StatusNotReceived ∧
    reservedPseudoCode StatusNotReceived = true := by
  decide

/-- Claim C5 (counterexample): the claim says that on a submission error
`closeSent` remains false. Starting from a connection with `closeSent`
false and a failing submission (`submitErr = true`), the flag does not
remain false: the source sets `c.closeSent = true` unconditionally after
the submission, error or not. -/
theorem closeSent_not_left_false_on_error :
    ¬ (sendCloseControlFrame ⟨false, false⟩ StatusNormalClosure [] true).1.closeSent = false := by
  decide

/-- Claim C5 (amended): after `sendClose(status, reason)` on a connection
whose `closeSent` flag is false, the flag is set to true and a Close
control frame was submitted to the writer task, regardless of whether the
submission succeeded or failed. -/
theorem closeSent_set_regardless_of_outcome (c : Conn) (s : StatusCode)
    (reason : List Nat) (submitErr : Bool) (h : c.closeSent = false) :
    (sendCloseControlFrame c s reason submitErr).1.closeSent = true ∧
    (sendCloseControlFrame c s reason submitErr).2.isSome = true := by
  simp [sendCloseControlFrame, h]

/-- Claim C5 (witness): the amended claim at a concrete input — an open
connection, status 1000, empty reason, failing submission. -/
theorem closeSent_set_regardless_of_outcome_witness :
    (Conn.mk false false).closeSent = false ∧
    ((sendCloseControlFrame ⟨false, false⟩ StatusNormalClosure [] true).1.closeSent = true ∧
     (sendCloseControlFrame ⟨false, false⟩ StatusNormalClosure [] true).2.isSome = true) :=
  ⟨rfl, closeSent_set_regardless_of_outcome ⟨false, false⟩ StatusNormalClosure [] true rfl⟩

/-- Claim C6: the claim says that once the reader task terminates, no
further messages are published on the inbound channel before it is
closed. In the `chan []byte` revision of `readMessages`, the loop body
publishes the result of `readMessage` before testing it: when
`readMessage` returns nil (reader termination), that nil is still sent on
`readC` as one further published value, and only then is the channel
closed — so channel closure is not the only termination signal consumers
observe. -/
theorem readMessages_publishes_nil_before_close (rest : List (Option (List Nat))) :
    readMessagesRun (none :: rest) = ([none], true) := rfl

/-- Helper for claim C7: the length of the truncated close reason is the
minimum of the reason length and 123. -/
theorem truncReason_length (reason : List Nat) :
    (if reason.length > maxCloseReason then reason.take maxCloseReason else reason).length
      = min reason.length 123 := by
  by_cases hl : reason.length > maxCloseReason
  · rw [if_pos hl]
    simp [maxCloseReason, maxControlPayload] at hl ⊢
    omega
  · rw [if_neg hl]
    simp [maxCloseReason, maxControlPayload] at hl ⊢
    omega

/-- Helper for claim C7: along any sequence of `sendCloseControlFrame`
calls, the number of submitted Close frames grows by at most one beyond
the running count, and only when the connection had not yet sent a
Close. -/
theorem foldl_closeCallStep_le (calls : List (StatusCode × List Nat × Bool)) :
    ∀ (c : Conn) (k : Nat),
      (calls.foldl closeCallStep (c, k)).2 ≤ k + if c.closeSent then 0 else 1 := by
  induction calls with
  | nil => intro c k; simp [runCloseCalls]
  | cons call rest ih =>
    intro c k
    rw [List.foldl_cons]
    by_cases h : c.closeSent = true
    · have hstep : closeCallStep (c, k) call = (c, k) := by
        simp [closeCallStep, sendCloseControlFrame, h]
      rw [hstep]
      simpa [h] using ih c k
    · have hs : c.closeSent = false := by simpa using h
      have hstep : closeCallStep (c, k) call = ({ c with closeSent := true }, k + 1) := by
        simp [closeCallStep, sendCloseControlFrame, hs]
      rw [hstep]
      have := ih { c with closeSent := true } (k + 1)
      simp only [hs] at *
      simp at this ⊢
      omega

/-- Claim C7: `sendClose` is idempotent per connection and at most one
Close frame is ever submitted: when `closeSent` is already set the call is
a no-op; otherwise the reason is truncated to 123 bytes
(`maxCloseReason`), the 2-byte big-endian status followed by the reason is
submitted as a single Close control frame of `2 + min (len reason) 123`
bytes, and `closeSent` is set; a call immediately following any call never
submits another frame; and over any sequence of calls on a connection at
most one Close frame is submitted. -/
theorem sendClose_idempotent_at_most_one (c : Conn) (s s2 : StatusCode)
    (reason reason2 : List Nat) (e e2 : Bool)
    (calls : List (StatusCode × List Nat × Bool)) :
    sendCloseControlFrame c s reason e =
      (if c.closeSent then (c, none)
       else ({ c with closeSent := true },
             some { opcode := opcodeClose,
                    data := (s % 65536) / 256 :: (s % 65536) % 256 ::
                      (if reason.length > maxCloseReason then reason.take maxCloseReason
                       else reason) })) ∧
    ((sendCloseControlFrame c s reason e).2.all
      fun f => f.data.length == 2 + min reason.length 123) = true ∧
    (sendCloseControlFrame (sendCloseControlFrame c s reason e).1 s2 reason2 e2).2 = none ∧
    (runCloseCalls c calls).2 ≤ 1 := by
  refine ⟨?_, ?_, ?_, ?_⟩
  · by_cases h : c.closeSent = true <;> simp [sendCloseControlFrame, h]
  · by_cases h : c.closeSent = true
    · simp [sendCloseControlFrame, h]
    · have hs : c.closeSent = false := by simpa using h
      simp [sendCloseControlFrame, hs, truncReason_length]
      omega
  · by_cases h : c.closeSent = true <;>
      simp [sendCloseControlFrame, h]
  · have := foldl_closeCallStep_le calls c 0
    by_cases h : c.closeSent = true <;> simp [h] at this <;>
      simp [runCloseCalls] <;> omega

/-- Claim C8: `parseClose` maps a payload of length 0 or 1 to
(status-not-received, empty reason), length 2 to the big-endian 16-bit
status with empty reason, and length ≥ 3 to that status with the
remaining bytes as reason; in particular `[0x03, 0xE9]` parses to status
1001 (Going Away) with empty reason, and the Close branch of
`readMessage` then mirrors a Close control frame with status 1001 (payload
`[0x03, 0xE9]`) before the reader returns nil and exits. -/
theorem parseClose_maps_lengths_and_mirrors (b0 b1 r : Nat) (rs : List Nat) (e : Bool) :
    parseClose [] = (StatusNotReceived, []) ∧
    parseClose [b0] = (StatusNotReceived, []) ∧
    parseClose [b0, b1] = (bigEndianUint16 b0 b1, []) ∧
    parseClose (b0 :: b1 :: r :: rs) = (bigEndianUint16 b0 b1, r :: rs) ∧
    parseClose [0x03, 0xE9] = (StatusGoingAway, []) ∧
    onCloseFrame ⟨false, false⟩ [0x03, 0xE9] e =
      (⟨true, true⟩, some { opcode := opcodeClose, data := [0x03, 0xE9] }) := by
  refine ⟨rfl, rfl, rfl, rfl, by decide, ?_⟩
  simp [onCloseFrame, parseClose, sendCloseControlFrame, bigEndianUint16,
    StatusGoingAway, maxCloseReason, maxControlPayload, opcodeClose]

/-- Claim C9: for every connection state, `IsClosed` returns true exactly
when both `closeReceived` and `closeSent` are set, and `IsClosing` returns
true exactly when at least one of them is set but not both. -/
theorem isClosed_isClosing_predicates (c : Conn) :
    (IsClosed c = true ↔ c.closeReceived = true ∧ c.closeSent = true) ∧
    (IsClosing c = true ↔
      (c.closeReceived = true ∨ c.closeSent = true) ∧
      ¬(c.closeReceived = true ∧ c.closeSent = true)) := by
  cases c with
  | mk r s => cases r <;> cases s <;> simp [IsClosed, IsClosing, isCloseSent]

/-- Helper for claim C10: `regLoad` on a nonempty registry checks the head
entry's key first. -/
theorem regLoad_cons (b : String × Client) (rest : Registry) (k : String) :
    regLoad (b :: rest) k = if b.1 == k then some b.2 else regLoad rest k := by
  unfold regLoad
  rw [List.find?_cons]
  cases hb : (b.1 == k) <;> simp [hb]

/-- Helper for claim C10: in a registry with pairwise-distinct keys,
looking up the key of any entry finds exactly that entry. -/
theorem regLoad_eq_some_of_mem (k : String) (a : String × Client) :
    ∀ (m : Registry), (m.map Prod.fst).Nodup → a ∈ m → a.1 = k →
      regLoad m k = some a.2 := by
  intro m
  induction m with
  | nil => intro _ hmem _; cases hmem
  | cons b rest ih =>
    intro hnd hmem hk
    rw [List.map_cons, List.nodup_cons] at hnd
    rw [regLoad_cons]
    rcases List.mem_cons.mp hmem with rfl | hmem'
    · rw [if_pos (by simp [hk])]
    · have hbk : ¬ (b.1 == k) = true := by
        intro hb
        have hb' : b.1 = k := by simpa using hb
        have hin : a.1 ∈ rest.map Prod.fst := List.mem_map_of_mem Prod.fst hmem'
        rw [hk, ← hb'] at hin
        exact hnd.1 hin
      rw [if_neg hbk]
      exact ih hnd.2 hmem' hk

/-- Helper for claim C10: registry entries are never removed (the code
only ever `Load`s and `LoadOrStore`s), so a key mapped in an earlier
snapshot is mapped to the same client in any later snapshot with
pairwise-distinct keys. -/
theorem regLoad_mono (m1 m2 : Registry) (k : String) (v : Client)
    (hsub : m1.Sublist m2) (hnd : (m2.map Prod.fst).Nodup)
    (h : regLoad m1 k = some v) : regLoad m2 k = some v := by
  unfold regLoad at h
  rcases Option.map_eq_some'.mp h with ⟨a, hfind, hv⟩
  have hk : a.1 = k := by simpa using List.find?_some hfind
  have hmem : a ∈ m2 := hsub.subset (List.mem_of_find?_eq_some hfind)
  rw [← hv]
  exact regLoad_eq_some_of_mem k a m2 hnd hmem hk

/-- Helper for claim C10: storing a client under a key absent from a
registry with pairwise-distinct keys keeps the keys pairwise distinct. -/
theorem regStore_keys_nodup (m : Registry) (k : String) (v : Client)
    (hnd : (m.map Prod.fst).Nodup) (h : regLoad m k = none) :
    ((m ++ [(k, v)]).map Prod.fst).Nodup := by
  have hfind : m.find? (fun e => e.1 == k) = none := Option.map_eq_none'.mp h
  have hnotin : k ∉ m.map Prod.fst := by
    intro hin
    rcases List.mem_map.mp hin with ⟨a, hmem, ha⟩
    have := List.find?_eq_none.mp hfind a hmem
    simp [ha] at this
  rw [List.map_append]
  exact List.nodup_append.mpr
    ⟨hnd, by simp, by simpa [List.disjoint_singleton] using hnotin⟩

/-- Helper for claim C10: after storing a client under a previously absent
key, looking the key up yields that client. -/
theorem regLoad_append_self (m : Registry) (k : String) (v : Client)
    (h : regLoad m k = none) : regLoad (m ++ [(k, v)]) k = some v := by
  have hfind : m.find? (fun e => e.1 == k) = none := Option.map_eq_none'.mp h
  unfold regLoad
  rw [List.find?_append, hfind]
  simp

/-- Helper for claim C10: `hexDigit` only ever produces lowercase
hexadecimal digit characters. -/
theorem hexDigit_isLowerHex (n : Nat) : isLowerHexChar (hexDigit n) = true := by
  rcases Nat.lt_or_ge n 16 with h | h
  · interval_cases n <;> decide
  · unfold hexDigit
    rw [if_neg (by omega), if_neg (by omega)]
    decide

/-- Helper for claim C10: every character of a word's hex rendering is a
lowercase hexadecimal digit. -/
theorem wordHexChars_isLowerHex (w : Nat) :
    ∀ ch ∈ wordHexChars w, isLowerHexChar ch = true := by
  intro ch hch
  unfold wordHexChars at hch
  simp only [List.mem_cons, List.not_mem_nil, or_false] at hch
  rcases hch with rfl | rfl | rfl | rfl | rfl | rfl | rfl | rfl <;>
    exact hexDigit_isLowerHex _

/-- Helper for claim C10: the hashed identity is 64 characters long. -/
theorem hash_length (id : String) : (hash id).length = 64 := by
  unfold hash
  rw [String.length_mk]
  simp [wordHexChars]

/-- Helper for claim C10: every character of the hashed identity is a
lowercase hexadecimal digit. -/
theorem hash_chars_lower (id : String) :
    ∀ ch ∈ (hash id).data, isLowerHexChar ch = true := by
  intro ch hch
  unfold hash at hch
  simp only [List.mem_append] at hch
  rcases hch with ((((((h | h) | h) | h) | h) | h) | h) | h <;>
    exact wordHexChars_isLowerHex _ ch h

/-- Claim C10: for every identity string, at most one supervisor is
registered in the process-wide mapping under `hash id` — the lowercase hex
SHA-256 digest of the identity (64 lowercase hexadecimal characters); the
registered keys stay pairwise distinct across `NewOrCachedClient`; the
returned client is always the one registered under `hash id` afterwards,
so a later acquisition with the same identity returns the cached
supervisor; and the locally-built client is disposed — exactly when it
lost the insertion race — by submitting a Close control frame with status
`GoingAway` (1001) on its lone connection. `m1`/`m2` are the registry
snapshots at the `Load` and `LoadOrStore` linearization points; `fresh`
is the client built on the miss path, holding the single just-dialed
connection `freshConn`. -/
theorem newOrCachedClient_unique_cached_disposal
    (m1 m2 : Registry) (id : String) (fresh : Client) (freshConn : Conn) (e : Bool)
    (hnd : (m2.map Prod.fst).Nodup)
    (hsub : m1.Sublist m2)
    (hfresh : fresh.conns = [freshConn])
    (hfc : freshConn.closeSent = false) :
    ((NewOrCachedClient m1 m2 id fresh e).1.map Prod.fst).Nodup ∧
    regLoad (NewOrCachedClient m1 m2 id fresh e).1 (hash id) =
      some (NewOrCachedClient m1 m2 id fresh e).2.1 ∧
    (∀ cl, regLoad m1 (hash id) = some cl →
      NewOrCachedClient m1 m2 id fresh e = (m2, cl, none)) ∧
    ((NewOrCachedClient m1 m2 id fresh e).2.2 ≠ none ↔
      (regLoad m1 (hash id) = none ∧ ¬ regLoad m2 (hash id) = none)) ∧
    (∀ f, (NewOrCachedClient m1 m2 id fresh e).2.2 = some f →
      f.opcode = opcodeClose ∧ wireCloseStatus f.data = StatusGoingAway) ∧
    (hash id).length = 64 ∧
    (∀ ch ∈ (hash id).data, isLowerHexChar ch = true) := by
  have hdel : deleteClient fresh e =
      some { opcode := opcodeClose, data := [0x03, 0xE9] } := by
    simp [deleteClient, hfresh, Conn.Close, sendCloseControlFrame, hfc,
      StatusGoingAway, maxCloseReason, maxControlPayload]
  rcases h1 : regLoad m1 (hash id) with _ | cl
  · rcases h2 : regLoad m2 (hash id) with _ | actual
    · -- miss at both points: the local creator wins the insertion race.
      have hres : NewOrCachedClient m1 m2 id fresh e =
          (m2 ++ [(hash id, fresh)], fresh, none) := by
        simp [NewOrCachedClient, regLoadOrStore, h1, h2]
      rw [hres]
      refine ⟨regStore_keys_nodup m2 (hash id) fresh hnd h2,
        regLoad_append_self m2 (hash id) fresh h2, ?_, ?_, ?_,
        hash_length id, hash_chars_lower id⟩
      · intro cl hcl; simp at hcl
      · simp [h2]
      · intro f hf; cases hf
    · -- miss at Load, hit at LoadOrStore: a concurrent creator won.
      have hres : NewOrCachedClient m1 m2 id fresh e =
          (m2, actual, deleteClient fresh e) := by
        simp [NewOrCachedClient, regLoadOrStore, h1, h2]
      rw [hres]
      refine ⟨hnd, h2, ?_, ?_, ?_, hash_length id, hash_chars_lower id⟩
      · intro cl hcl; simp at hcl
      · simp [hdel, h2]
      · intro f hf
        rw [hdel] at hf
        cases hf
        exact ⟨rfl, by decide⟩
  · -- hit at Load: the cached supervisor is returned unchanged.
    have hres : NewOrCachedClient m1 m2 id fresh e = (m2, cl, none) := by
      simp [NewOrCachedClient, h1]
    rw [hres]
    refine ⟨hnd, regLoad_mono m1 m2 (hash id) cl hsub hnd h1, ?_, ?_, ?_,
      hash_length id, hash_chars_lower id⟩
    · intro cl' hcl'
      injection hcl' with hcl2
      rw [hcl2]
    · simp [h1]
    · intro f hf; cases hf

/-- Claim C10 (witness): acquiring a supervisor for identity `"id1"` in an
empty registry with a fresh client holding one open connection — the
hypotheses hold and the theorem's conclusion follows at this input. -/
theorem newOrCachedClient_unique_cached_disposal_witness :
    ((([] : Registry).map Prod.fst).Nodup ∧ List.Sublist ([] : Registry) [] ∧
      (Client.mk [⟨false, false⟩]).conns = [Conn.mk false false] ∧
      (Conn.mk false false).closeSent = false) ∧
    (((NewOrCachedClient [] [] "id1" ⟨[⟨false, false⟩]⟩ false).1.map Prod.fst).Nodup ∧
     regLoad (NewOrCachedClient [] [] "id1" ⟨[⟨false, false⟩]⟩ false).1 (hash "id1") =
       some (NewOrCachedClient [] [] "id1" ⟨[⟨false, false⟩]⟩ false).2.1 ∧
     (∀ cl, regLoad [] (hash "id1") = some cl →
       NewOrCachedClient [] [] "id1" ⟨[⟨false, false⟩]⟩ false = ([], cl, none)) ∧
     ((NewOrCachedClient [] [] "id1" ⟨[⟨false, false⟩]⟩ false).2.2 ≠ none ↔
       (regLoad [] (hash "id1") = none ∧ ¬ regLoad ([] : Registry) (hash "id1") = none)) ∧
     (∀ f, (NewOrCachedClient [] [] "id1" ⟨[⟨false, false⟩]⟩ false).2.2 = some f →
       f.opcode = opcodeClose ∧ wireCloseStatus f.data = StatusGoingAway) ∧
     (hash "id1").length = 64 ∧
     (∀ ch ∈ (hash "id1").data, isLowerHexChar ch = true)) :=
  ⟨⟨List.nodup_nil, List.nil_sublist [], rfl, rfl⟩,
   newOrCachedClient_unique_cached_disposal [] [] "id1" ⟨[⟨false, false⟩]⟩
     ⟨false, false⟩ false List.nodup_nil (List.nil_sublist []) rfl rfl⟩

end Omdient
